import Mathlib

/-!
Shallow embedding of the `updatecheck` Go package (check.go, last_check.go,
options.go) and proofs about its update-check debounce, ledger persistence,
pending-message reporting and user-agent construction.

Modelling conventions:
* `time.Weekday` is `Fin 7` with Sunday = 0, exactly as in Go.
* The filesystem is an association list from paths to file contents; the
  environment (`CheckEnv`) carries the results of `os.Getenv`,
  `os.UserConfigDir`, `time.Now().Weekday()`, the outcomes of `os.MkdirAll`
  and `os.WriteFile`, `runtime.GOARCH` / `runtime.GOOS`, and what the HTTP
  client returns for the single POST a check performs.
* Every operation returns, besides its result, the list of I/O `Effect`s it
  performed, so that claims about "no network call" / "no filesystem I/O"
  are about the trace, not about intermediate states.
* The goroutine launched by `Check` is modelled as a pending task stored in
  the process state; `runPending` runs it to completion (this is the
  rendezvous `waitgroup.Wait` provides), and `Print` first runs the pending
  task and then emits every queued message via `clio.Info`.
* `json.Marshal` of `versionConfig` (whose only exported field is
  `LastCheckForUpdates`) is an executable encoder to the literal JSON text,
  and `json.Unmarshal` an executable parser of that shape; the JSON body of
  the HTTP response is abstracted to `Option checkResponse` (`none` models a
  body that does not decode).
-/

/-- Application identifier (Go `type App string`). -/
abbrev App := String

/-- Go `time.Weekday`: Sunday = 0 through Saturday = 6. -/
abbrev Weekday := Fin 7

/-- Go `time.Sunday`, the zero value of `time.Weekday`. -/
def Sunday : Weekday := ⟨0, by omega⟩

/-- Go `time.Monday`. -/
def Monday : Weekday := ⟨1, by omega⟩

/-- The literal `"true"` compared against the kill-switch variable. -/
def trueLit : String := "true"

/-- The `commonfate` configuration subdirectory name. -/
def commonfateDir : String := "commonfate"

/-- Suffix `"-update"` of the per-application ledger file name. -/
def updateSuffix : String := "-update"

/-- Development endpoint URL. -/
def devURL : String := "https://update-dev.commonfate.io/check"

/-- Production endpoint URL. -/
def prodURL : String := "https://update.commonfate.io/check"

/-- Module path of this library, looked up in the build info. -/
def updatecheckModulePath : String := "github.com/common-fate/updatecheck"

/-- The dot separator used by `strings.Split` in `retrieveCallInfo`. -/
def dotStr : String := "."

/-- The empty string. -/
def emptyStr : String := ""

/-- Go `path.Join` for the two-component joins the package performs. -/
def pathJoin (a b : String) : String :=
  if a = emptyStr then b else a ++ "/" ++ b

/-- The filesystem: an association list from paths to file contents. -/
abbrev Fs := List (String × String)

/-- Reading a file: first binding for the path wins. -/
def fsLookup (fs : Fs) (p : String) : Option String :=
  match fs with
  | [] => none
  | (q, d) :: rest => if q = p then some d else fsLookup rest p

/-- `os.WriteFile`: the new binding shadows any previous one. -/
def fsWriteFile (fs : Fs) (p d : String) : Fs := (p, d) :: fs

/-- `checkRequest` (check.go): the JSON request payload. -/
structure checkRequest where
  Application : App
  Version : String
  Architecture : String
  OS : String

/-- `checkRespBody` is `checkResponse` (check.go): the decoded JSON response. -/
structure checkResponse where
  UpdateRequired : Bool
  Message : String

/-- One observable I/O action of the package. -/
inductive Effect where
  | mkdirAll (dir : String)
  | statFile (p : String)
  | readFile (p : String)
  | writeFile (p : String) (data : String)
  | netPost (url : String) (req : checkRequest)
  | launchTask
  | output (msg : String)

/-- `true` exactly on network effects. -/
def netEffect : Effect → Bool
  | .netPost _ _ => true
  | _ => false

/-- `true` exactly on the goroutine-launch marker. -/
def launchEffect : Effect → Bool
  | .launchTask => true
  | _ => false

/-- `true` exactly on file-write effects. -/
def writeEffect : Effect → Bool
  | .writeFile _ _ => true
  | _ => false

/-- `true` on every filesystem effect (mkdir, stat, read, write). -/
def fsEffect : Effect → Bool
  | .mkdirAll _ => true
  | .statFile _ => true
  | .readFile _ => true
  | .writeFile _ _ => true
  | _ => false

/-- What the HTTP client returns for the check POST: a transport error, or a
status code together with the response body (abstracted to `none` when the
body is not JSON decodable into `checkResponse`). -/
inductive HttpOutcome where
  | transportError
  | response (status : Nat) (body : Option checkResponse)

/-- Error taxonomy of `callCheckAPI`: transport failure, non-200 status,
undecodable body. -/
inductive CheckError where
  | network
  | protocol (status : Nat)
  | decode

/-- The ambient environment of one check: `os.Getenv`, the clock, the config
directory, filesystem-operation outcomes, `runtime` constants, and the HTTP
outcome. -/
structure CheckEnv where
  grantedDisableUpdateCheck : String
  today : Weekday
  userConfigDir : Option String
  mkdirOk : Bool
  writeOk : Bool
  goarch : String
  goos : String
  http : HttpOutcome

/-- `versionConfig` (last_check.go): the ledger record. `app` is unexported
(not serialized); `LastCheckForUpdates` is the single JSON field. -/
structure versionConfig where
  app : App
  LastCheckForUpdates : Weekday

/-- The JSON text up to the value of the single serialized field. -/
def ledgerKeyPrefix : String := "\x7b\"lastCheckForUpdates\":"

/-- The closing brace character. -/
def closeBrace : Char := Char.ofNat 125

/-- `json.Marshal` of a `versionConfig`: only the exported field is
serialized, as `\x7b"lastCheckForUpdates":<n>\x7d`. -/
def marshalVC (w : Weekday) : String :=
  ledgerKeyPrefix ++ toString w.val ++ String.mk [closeBrace]

/-- Parse a nonempty digit string into a natural number. -/
def parseNatChars (cs : List Char) : Option Nat :=
  if cs.isEmpty then none
  else
    cs.foldl
      (fun acc? c =>
        acc?.bind fun acc =>
          if c.isDigit then some (acc * 10 + (c.toNat - 48)) else none)
      (some 0)

/-- `json.Unmarshal` into a `versionConfig`: accepts exactly the shape
`marshalVC` produces and rejects anything else (a rejected payload makes the
loader fall back to the zero record). -/
def unmarshalVC (s : String) : Option Weekday :=
  let cs := s.toList
  let pre := ledgerKeyPrefix.toList
  if cs.take pre.length = pre then
    match (cs.drop pre.length).reverse with
    | [] => none
    | c :: rest =>
      if c = closeBrace then
        match parseNatChars rest.reverse with
        | some n => if h : n < 7 then some ⟨n, h⟩ else none
        | none => none
      else none
  else none

/-- Path of the ledger file for `app` under config directory `cd`:
`<cd>/commonfate/<app>-update`. -/
def vcFilePath (cd : String) (app : App) : String :=
  pathJoin (pathJoin cd commonfateDir) (app ++ updateSuffix)

/-- `loadVersionConfig` (last_check.go): best-effort read of the ledger
record; every failure (no config dir, mkdir failure, missing file, corrupt
JSON) falls back to the zero record, whose weekday is Sunday. -/
def loadVersionConfig (env : CheckEnv) (fs : Fs) (app : App) :
    versionConfig × List Effect :=
  match env.userConfigDir with
  | none => (⟨app, Sunday⟩, [])
  | some cd =>
    let cf := pathJoin cd commonfateDir
    if env.mkdirOk then
      let vcfile := pathJoin cf (app ++ updateSuffix)
      match fsLookup fs vcfile with
      | none => (⟨app, Sunday⟩, [.mkdirAll cf, .statFile vcfile])
      | some data =>
        match unmarshalVC data with
        | none => (⟨app, Sunday⟩, [.mkdirAll cf, .statFile vcfile, .readFile vcfile])
        | some w => (⟨app, w⟩, [.mkdirAll cf, .statFile vcfile, .readFile vcfile])
    else (⟨app, Sunday⟩, [.mkdirAll cf])

/-- Error text when `os.UserConfigDir` fails. -/
def errUserConfigDir : String := "user config dir unavailable"

/-- Error text when `os.MkdirAll` fails. -/
def errMkdirAll : String := "mkdir failed"

/-- `versionConfig.Save` (last_check.go): resolves the config directory,
ensures it exists, marshals the record and writes the per-application file.
The Go source discards the result of `os.WriteFile` and returns `nil`, so a
failed write still yields `.ok ()` (and leaves the filesystem unchanged). -/
def versionConfig.Save (env : CheckEnv) (fs : Fs) (vc : versionConfig) :
    Except String Unit × Fs × List Effect :=
  match env.userConfigDir with
  | none => (.error errUserConfigDir, fs, [])
  | some cd =>
    let cf := pathJoin cd commonfateDir
    if env.mkdirOk then
      let data := marshalVC vc.LastCheckForUpdates
      let vcfile := pathJoin cf (vc.app ++ updateSuffix)
      if env.writeOk then
        (.ok (), fsWriteFile fs vcfile data, [.mkdirAll cf, .writeFile vcfile data])
      else
        (.ok (), fs, [.mkdirAll cf, .writeFile vcfile data])
    else (.error errMkdirAll, fs, [.mkdirAll cf])

/-- `Options` (options.go): the update-check endpoint; the `*http.Client`
field's behaviour is carried by `CheckEnv.http`. -/
structure Options where
  url : String

/-- `callCheckAPI` (check.go): builds the request, applies option overrides,
POSTs once, and fails on transport error, non-200 status, or undecodable
body. JSON-encoding the request cannot fail for this payload type. -/
def callCheckAPI (env : CheckEnv) (app : App) (currentVersion : String)
    (prod : Bool) (opts : List (Options → Options)) :
    Except CheckError checkResponse × List Effect :=
  let o := opts.foldl (fun acc f => f acc) ⟨if prod then prodURL else devURL⟩
  let cr : checkRequest := ⟨app, currentVersion, env.goarch, env.goos⟩
  match env.http with
  | .transportError => (.error .network, [.netPost o.url cr])
  | .response status body =>
    if status ≠ 200 then (.error (.protocol status), [.netPost o.url cr])
    else
      match body with
      | none => (.error .decode, [.netPost o.url cr])
      | some r => (.ok r, [.netPost o.url cr])

/-- The arguments of a launched `doCheck` goroutine. -/
structure PendingTask where
  app : App
  currentVersion : String
  prod : Bool
  opts : List (Options → Options)

/-- Process-wide state: the filesystem, `checks.msgs`, and the in-flight
background task (the `waitgroup`-tracked goroutine), if any. -/
structure ProcState where
  fs : Fs
  msgs : List String
  pending : Option PendingTask

/-- The state at process start: no messages, no in-flight check. -/
def procInit (fs : Fs) : ProcState := ⟨fs, [], none⟩

/-- `doCheck` (check.go): calls the API; on any error merely logs and stops;
on success saves the ledger with today's weekday (a save error is only
logged) and appends the message to `checks.msgs` only when `UpdateRequired`
is set. -/
def doCheck (env : CheckEnv) (fs : Fs) (msgs : List String) (t : PendingTask) :
    Fs × List String × List Effect :=
  match (callCheckAPI env t.app t.currentVersion t.prod t.opts).1 with
  | .error _ => (fs, msgs, (callCheckAPI env t.app t.currentVersion t.prod t.opts).2)
  | .ok r =>
    ((versionConfig.Save env fs ⟨t.app, env.today⟩).2.1,
     if r.UpdateRequired then msgs ++ [r.Message] else msgs,
     (callCheckAPI env t.app t.currentVersion t.prod t.opts).2
       ++ (versionConfig.Save env fs ⟨t.app, env.today⟩).2.2)

/-- `Check` (check.go): kill switch first; then load the ledger and no-op if
today's weekday equals the stored one; otherwise clear `checks.msgs` and
launch the background task. -/
def Check (env : CheckEnv) (st : ProcState) (app : App) (currentVersion : String)
    (prod : Bool) (opts : List (Options → Options)) : ProcState × List Effect :=
  if env.grantedDisableUpdateCheck = trueLit then (st, [])
  else
    let l := loadVersionConfig env st.fs app
    if env.today = l.1.LastCheckForUpdates then (st, l.2)
    else
      (⟨st.fs, [], some ⟨app, currentVersion, prod, opts⟩⟩, l.2 ++ [.launchTask])

/-- Run the in-flight background task to completion (the rendezvous that
`waitgroup.Wait` provides). -/
def runPending (env : CheckEnv) (st : ProcState) : ProcState × List Effect :=
  match st.pending with
  | none => (st, [])
  | some t =>
    let d := doCheck env st.fs st.msgs t
    (⟨d.1, d.2.1, none⟩, d.2.2)

/-- `Print` (check.go): waits for the in-flight task, then passes every
queued message (empty or not) to `clio.Info`, in order. Returns the new
state, the emitted messages, and the effect trace. -/
def Print (env : CheckEnv) (st : ProcState) :
    ProcState × List String × List Effect :=
  let w := runPending env st
  (w.1, w.1.msgs, w.2 ++ w.1.msgs.map Effect.output)

/-- A dependency entry of `runtime/debug.BuildInfo`. -/
structure BuildDep where
  Path : String
  Version : String

/-- `getLibraryVersion` (check.go): the version of this module in the build
info, or the empty string when the build info is unavailable or the module
is not among the dependencies. -/
def getLibraryVersion (buildInfo : Option (List BuildDep)) : String :=
  match buildInfo with
  | none => emptyStr
  | some deps =>
    match deps.find? (fun d => d.Path = updatecheckModulePath) with
    | some d => d.Version
    | none => emptyStr

/-- The dot character, `strings.Split`'s separator in `retrieveCallInfo`. -/
def dotChar : Char := Char.ofNat 46

/-- Go `strings.Split` with a one-character separator: splitting the empty
string yields `[""]`, and `n` separators yield `n + 1` (possibly empty)
fields. -/
def splitChar (sep : Char) : List Char → List (List Char)
  | [] => [[]]
  | c :: rest =>
    let r := splitChar sep rest
    if c = sep then [] :: r
    else
      match r with
      | [] => [[c]]
      | h :: t => (c :: h) :: t

/-- `retrieveCallInfo` (check.go), as a function of the resolved caller
function name. Go evaluates `parts[pl-2][0]`, which panics (index out of
range) when the name splits into fewer than two dot-separated parts or when
the second-to-last part is empty; `none` models that panic. -/
def retrieveCallInfo (funcName : String) : Option String :=
  let parts := splitChar dotChar funcName.toList
  let pl := parts.length
  if h : 2 ≤ pl then
    match parts.get ⟨pl - 2, by omega⟩ with
    | [] => none
    | c :: _ =>
      if c = Char.ofNat 40 then
        some (String.mk (List.intercalate [dotChar] (parts.take (pl - 2))))
      else
        some (String.mk (List.intercalate [dotChar] (parts.take (pl - 1))))
  else none

/-- User-Agent prefix `cf-updatecheck-go/`. -/
def uaPrefix : String := "cf-updatecheck-go/"

/-- A single space. -/
def spaceStr : String := " "

/-- The literal " (". -/
def parenOpen : String := " ("

/-- The literal ")". -/
def parenClose : String := ")"

/-- `userAgent` (check.go): formats library version, calling package and OS;
propagates the panic of `retrieveCallInfo` as `none`. -/
def userAgent (buildInfo : Option (List BuildDep)) (callerFuncName : String)
    (goos : String) : Option String :=
  (retrieveCallInfo callerFuncName).map fun pkg =>
    uaPrefix ++ getLibraryVersion buildInfo ++ spaceStr ++ pkg ++ parenOpen
      ++ goos ++ parenClose

/-! Concrete inputs used to instantiate the theorems. -/

/-- A concrete user configuration directory. -/
def cdW : String := "/home/u/.config"

/-- A concrete application identifier. -/
def appW : App := "granted"

/-- A concrete current version. -/
def verW : String := "v0.1.0"

/-- A concrete architecture. -/
def archW : String := "amd64"

/-- A concrete operating system. -/
def osW : String := "linux"

/-- A concrete update message. -/
def msgW : String := "v2 available"

/-- A concrete non-empty server message. -/
def msgHello : String := "hello"

/-- A function name with fewer than two dot-separated parts. -/
def mainStr : String := "main"

/-- The dotted name `retrieveCallInfo` resolves in this package's own call
path. -/
def callerStr : String := "github.com/common-fate/updatecheck.callCheckAPI"

/-- An environment with the kill switch unset, a working filesystem and a
given clock and HTTP outcome. -/
def mkEnv (today : Weekday) (http : HttpOutcome) : CheckEnv :=
  ⟨emptyStr, today, some cdW, true, true, archW, osW, http⟩

/-- An environment whose only filesystem fault is a failing
`os.WriteFile`. -/
def mkEnvWriteFail (today : Weekday) (http : HttpOutcome) : CheckEnv :=
  ⟨emptyStr, today, some cdW, true, false, archW, osW, http⟩

/-- An environment with the kill switch set to `"true"`. -/
def mkEnvKilled (today : Weekday) (http : HttpOutcome) : CheckEnv :=
  ⟨trueLit, today, some cdW, true, true, archW, osW, http⟩

/-- A Monday environment whose server answers 200 with
`updateRequired = true` and message `"v2 available"`. -/
def envOkTrue : CheckEnv := mkEnv Monday (.response 200 (some ⟨true, msgW⟩))

/-- A Monday environment whose server answers 200 with
`updateRequired = false` and message `"hello"`. -/
def envOkFalseHello : CheckEnv :=
  mkEnv Monday (.response 200 (some ⟨false, msgHello⟩))

/-- A Monday environment whose server answers 200 with
`updateRequired = true` and an empty message. -/
def envOkTrueEmpty : CheckEnv :=
  mkEnv Monday (.response 200 (some ⟨true, emptyStr⟩))

/-- A Monday environment whose server answers 200 with
`updateRequired = false` and an empty message. -/
def envOkFalseEmpty : CheckEnv :=
  mkEnv Monday (.response 200 (some ⟨false, emptyStr⟩))

/-- A Monday environment whose server answers HTTP 500. -/
def env500 : CheckEnv := mkEnv Monday (.response 500 none)

/-! Helper lemmas shared between the claim theorems. -/

/-- Deserializing a serialized ledger record recovers the weekday. -/
theorem unmarshalVC_marshalVC : ∀ w : Weekday, unmarshalVC (marshalVC w) = some w := by
  decide

/-- Reading a path just written returns the written data. -/
theorem fsLookup_fsWriteFile (fs : Fs) (p d : String) :
    fsLookup (fsWriteFile fs p d) p = some d := by
  simp [fsLookup, fsWriteFile]

/-- `Check` with the kill switch set returns the state unchanged with an
empty trace. -/
theorem Check_killed (env : CheckEnv) (st : ProcState) (a : App) (v : String)
    (p : Bool) (o : List (Options → Options))
    (h : env.grantedDisableUpdateCheck = trueLit) :
    Check env st a v p o = (st, []) := by
  simp [Check, h]

/-- `Check` with today's weekday equal to the stored one only reads the
ledger and stops. -/
theorem Check_debounced (env : CheckEnv) (st : ProcState) (a : App) (v : String)
    (p : Bool) (o : List (Options → Options))
    (h1 : env.grantedDisableUpdateCheck ≠ trueLit)
    (h2 : env.today = (loadVersionConfig env st.fs a).1.LastCheckForUpdates) :
    Check env st a v p o = (st, (loadVersionConfig env st.fs a).2) := by
  simp [Check, h1, h2]

/-- A due `Check` clears the messages and launches the background task. -/
theorem Check_due (env : CheckEnv) (st : ProcState) (a : App) (v : String)
    (p : Bool) (o : List (Options → Options))
    (h1 : env.grantedDisableUpdateCheck ≠ trueLit)
    (h2 : env.today ≠ (loadVersionConfig env st.fs a).1.LastCheckForUpdates) :
    Check env st a v p o =
      (⟨st.fs, [], some ⟨a, v, p, o⟩⟩,
       (loadVersionConfig env st.fs a).2 ++ [.launchTask]) := by
  simp [Check, h1, h2]

/-- Loading the ledger performs no network call, no task launch and no file
write. -/
theorem loadVersionConfig_counts (env : CheckEnv) (fs : Fs) (a : App) :
    (loadVersionConfig env fs a).2.countP netEffect = 0 ∧
    (loadVersionConfig env fs a).2.countP launchEffect = 0 ∧
    (loadVersionConfig env fs a).2.countP writeEffect = 0 := by
  unfold loadVersionConfig
  cases env.userConfigDir with
  | none => simp
  | some cd =>
    simp only []
    split
    · rcases h1 : fsLookup fs (pathJoin (pathJoin cd commonfateDir) (a ++ updateSuffix))
        with _ | data
      · simp [h1, List.countP_cons, netEffect, launchEffect, writeEffect]
      · rcases h2 : unmarshalVC data with _ | w <;>
          simp [h1, h2, List.countP_cons, netEffect, launchEffect, writeEffect]
    · simp [List.countP_cons, netEffect, launchEffect, writeEffect]

/-- The effect trace of `callCheckAPI` is exactly one POST. -/
theorem callCheckAPI_effects (env : CheckEnv) (a : App) (v : String) (p : Bool)
    (o : List (Options → Options)) :
    (callCheckAPI env a v p o).2 =
      [.netPost
        ((o.foldl (fun acc f => f acc) (⟨if p then prodURL else devURL⟩ : Options)).url)
        ⟨a, v, env.goarch, env.goos⟩] := by
  unfold callCheckAPI
  cases henv : env.http with
  | transportError => simp [henv]
  | response s b =>
    simp only [henv]
    split
    · rfl
    · cases b <;> rfl

/-- A 200 response with a decodable body makes `callCheckAPI` succeed with
that body. -/
theorem callCheckAPI_resp_ok (env : CheckEnv) (a : App) (v : String) (p : Bool)
    (o : List (Options → Options)) (r : checkResponse)
    (h : env.http = .response 200 (some r)) :
    (callCheckAPI env a v p o).1 = .ok r := by
  simp [callCheckAPI, h]

/-- `Save` under a working filesystem writes the marshalled record at the
per-application path and succeeds. -/
theorem Save_ok_eq (env : CheckEnv) (fs : Fs) (a : App) (w : Weekday) (cd : String)
    (hcd : env.userConfigDir = some cd) (hmk : env.mkdirOk = true)
    (hwr : env.writeOk = true) :
    versionConfig.Save env fs ⟨a, w⟩ =
      (.ok (), fsWriteFile fs (vcFilePath cd a) (marshalVC w),
       [.mkdirAll (pathJoin cd commonfateDir),
        .writeFile (vcFilePath cd a) (marshalVC w)]) := by
  simp [versionConfig.Save, hcd, hmk, hwr, vcFilePath]

/-- Loading right after a write of the marshalled record recovers it. -/
theorem load_of_written (env : CheckEnv) (fs : Fs) (a : App) (w : Weekday)
    (cd : String) (hcd : env.userConfigDir = some cd) (hmk : env.mkdirOk = true) :
    (loadVersionConfig env (fsWriteFile fs (vcFilePath cd a) (marshalVC w)) a).1
      = ⟨a, w⟩ := by
  unfold loadVersionConfig
  simp [hcd, hmk, vcFilePath, fsLookup_fsWriteFile, unmarshalVC_marshalVC]

/-! The claim theorems. -/

/-- C2: if `GRANTED_DISABLE_UPDATE_CHECK` is the literal `"true"`, `Check`
returns immediately with the state unchanged and an empty effect trace —
no filesystem I/O (in particular the ledger is never read) and no network
I/O. -/
theorem C2_kill_switch_no_io (env : CheckEnv) (st : ProcState) (a : App)
    (v : String) (p : Bool) (o : List (Options → Options))
    (h : env.grantedDisableUpdateCheck = trueLit) :
    Check env st a v p o = (st, []) :=
  Check_killed env st a v p o h

/-- C2 witness: the kill-switch environment no-ops a concrete `Check`. -/
theorem C2_witness :
    (mkEnvKilled Monday .transportError).grantedDisableUpdateCheck = trueLit ∧
    Check (mkEnvKilled Monday .transportError) (procInit []) appW verW true []
      = (procInit [], []) :=
  ⟨rfl, C2_kill_switch_no_io (mkEnvKilled Monday .transportError) (procInit [])
    appW verW true [] rfl⟩

/-- C7: under a working filesystem, saving a ledger record and reloading it
for the same application yields the same weekday value (and the save
reports success). -/
theorem C7_save_load_roundtrip (env : CheckEnv) (fs : Fs) (a : App) (w : Weekday)
    (cd : String) (hcd : env.userConfigDir = some cd) (hmk : env.mkdirOk = true)
    (hwr : env.writeOk = true) :
    (versionConfig.Save env fs ⟨a, w⟩).1 = .ok () ∧
    (loadVersionConfig env (versionConfig.Save env fs ⟨a, w⟩).2.1 a).1.LastCheckForUpdates
      = w := by
  rw [Save_ok_eq env fs a w cd hcd hmk hwr]
  exact ⟨rfl, by rw [load_of_written env fs a w cd hcd hmk]⟩

/-- C7 witness: a concrete save/load round trip over the empty filesystem
preserves Monday. -/
theorem C7_witness :
    (mkEnv Sunday .transportError).userConfigDir = some cdW ∧
    (loadVersionConfig (mkEnv Sunday .transportError)
        (versionConfig.Save (mkEnv Sunday .transportError) [] ⟨appW, Monday⟩).2.1
        appW).1.LastCheckForUpdates = Monday :=
  ⟨rfl, (C7_save_load_roundtrip (mkEnv Sunday .transportError) [] appW Monday cdW
    rfl rfl rfl).2⟩

/-- C8: `Save` ignores the result of `os.WriteFile`: in an environment whose
only fault is a failing file write, `Save` still returns success while the
filesystem is left unchanged and the write was attempted. -/
theorem C8_save_ignores_write_failure :
    (mkEnvWriteFail Monday .transportError).writeOk = false ∧
    versionConfig.Save (mkEnvWriteFail Monday .transportError) [] ⟨appW, Monday⟩
      = (.ok (), [],
         [.mkdirAll (pathJoin cdW commonfateDir),
          .writeFile (vcFilePath cdW appW) (marshalVC Monday)]) :=
  ⟨rfl, rfl⟩

/-- C9 counterexample: a caller function name with fewer than two
dot-separated parts (such as `main`) makes `retrieveCallInfo` evaluate
`parts[pl-2]` out of range — a panic, modelled as `none` — and `userAgent`
fails with it instead of falling back to the empty string. -/
theorem C9_counterexample :
    (splitChar dotChar mainStr.toList).length < 2 ∧
    retrieveCallInfo mainStr = none ∧
    userAgent none mainStr osW = none :=
  ⟨by decide, by decide, by decide⟩

/-- C9 amended: building the User-Agent header succeeds whenever the
resolved caller function name has at least two dot-separated parts and a
nonempty second-to-last part (which holds for every name this library's
own call path resolves); the library-version lookup falls back to the
empty string when build info is unavailable. -/
theorem C9_user_agent_total_on_dotted_names (buildInfo : Option (List BuildDep))
    (funcName goos : String)
    (h2 : 2 ≤ (splitChar dotChar funcName.toList).length)
    (hne : (splitChar dotChar funcName.toList).getD
        ((splitChar dotChar funcName.toList).length - 2) [] ≠ []) :
    (∃ pkg, retrieveCallInfo funcName = some pkg) ∧
    (∃ s, userAgent buildInfo funcName goos = some s) ∧
    getLibraryVersion none = emptyStr := by
  have hmain : ∃ pkg, retrieveCallInfo funcName = some pkg := by
    simp only [retrieveCallInfo]
    rw [dif_pos h2]
    split
    case _ heq =>
      rw [List.getD_eq_get (splitChar dotChar funcName.toList) [] (by omega)] at hne
      exact absurd heq hne
    case _ c cs heq =>
      split <;> exact ⟨_, rfl⟩
  obtain ⟨pkg, hpkg⟩ := hmain
  refine ⟨⟨pkg, hpkg⟩, ⟨uaPrefix ++ getLibraryVersion buildInfo ++ spaceStr ++ pkg
    ++ parenOpen ++ goos ++ parenClose, ?_⟩, rfl⟩
  unfold userAgent
  rw [hpkg]
  rfl

/-- C9 witness: the dotted name resolved in this package's own call path
yields a User-Agent string. -/
theorem C9_witness :
    2 ≤ (splitChar dotChar callerStr.toList).length ∧
    (∃ s, userAgent none callerStr osW = some s) :=
  ⟨by decide,
   (C9_user_agent_total_on_dotted_names none callerStr osW (by decide) (by decide)).2.1⟩

/-- C3 counterexample: a successful round trip whose response has
`updateRequired = false` and a non-empty message does not append that
message to Pending Messages — the claim's "regardless of the updateRequired
flag" fails on the code. -/
theorem C3_counterexample :
    (callCheckAPI (mkEnv Monday (.response 200 (some ⟨false, msgHello⟩)))
        appW verW true []).1 = .ok ⟨false, msgHello⟩ ∧
    (runPending (mkEnv Monday (.response 200 (some ⟨false, msgHello⟩)))
        (Check (mkEnv Monday (.response 200 (some ⟨false, msgHello⟩)))
          (procInit []) appW verW true []).1).1.msgs = [] :=
  ⟨rfl, rfl⟩

/-- C3 amended: on a successful round trip the background task appends the
response message exactly when `updateRequired` is true — regardless of
whether the message is empty — and appends nothing otherwise. -/
theorem C3_append_iff_update_required (env : CheckEnv) (fs : Fs)
    (msgs : List String) (t : PendingTask) (r : checkResponse)
    (h : (callCheckAPI env t.app t.currentVersion t.prod t.opts).1 = .ok r) :
    (doCheck env fs msgs t).2.1
      = if r.UpdateRequired then msgs ++ [r.Message] else msgs := by
  unfold doCheck
  rw [h]

/-- C3 witness: a successful response with `updateRequired = true` and an
empty message still appends (the empty string) to Pending Messages. -/
theorem C3_witness :
    (callCheckAPI (mkEnv Monday (.response 200 (some ⟨true, emptyStr⟩)))
        appW verW true []).1 = .ok ⟨true, emptyStr⟩ ∧
    (doCheck (mkEnv Monday (.response 200 (some ⟨true, emptyStr⟩)))
        [] [] ⟨appW, verW, true, []⟩).2.1
      = if (⟨true, emptyStr⟩ : checkResponse).UpdateRequired
          then [] ++ [(⟨true, emptyStr⟩ : checkResponse).Message] else [] :=
  ⟨rfl, C3_append_iff_update_required (mkEnv Monday (.response 200 (some ⟨true, emptyStr⟩)))
    [] [] ⟨appW, verW, true, []⟩ ⟨true, emptyStr⟩ rfl⟩

/-- C4 counterexample: on `{updateRequired: true, message: ""}` the
background task queues the empty string and `Print` passes it to the
output mechanism — it emits one (empty) message rather than nothing. -/
theorem C4_counterexample :
    (Print envOkTrueEmpty
        (Check envOkTrueEmpty (procInit []) appW verW true []).1).2.1
      = [emptyStr] :=
  rfl

/-- C4 amended: `Print` waits for the in-flight background task and then
emits every pending message, in order, including an empty-string message
(as an empty output); a successful `updateRequired` check with message `m`
followed by `Print` emits exactly `[m]`; if `Check` was never invoked,
`Print` emits nothing and changes nothing. -/
theorem C4_print_emits_all_messages (env : CheckEnv) (st : ProcState)
    (a : App) (v : String) (p : Bool) (o : List (Options → Options))
    (r : checkResponse)
    (hkill : env.grantedDisableUpdateCheck ≠ trueLit)
    (hdue : env.today ≠ (loadVersionConfig env st.fs a).1.LastCheckForUpdates)
    (hhttp : env.http = .response 200 (some r))
    (hreq : r.UpdateRequired = true) :
    (Print env (Check env st a v p o).1).2.1 = [r.Message] ∧
    (∀ fs2, Print env (procInit fs2) = (procInit fs2, [], [])) := by
  constructor
  · rw [Check_due env st a v p o hkill hdue]
    simp [Print, runPending, doCheck, hreq,
      callCheckAPI_resp_ok env a v p o r hhttp]
  · intro fs2
    rfl

/-- C4 witness: a successful `{updateRequired: true, message: "v2
available"}` check followed by `Print` emits exactly that string once. -/
theorem C4_witness :
    (Print envOkTrue (Check envOkTrue (procInit []) appW verW true []).1).2.1
      = [msgW] :=
  (C4_print_emits_all_messages envOkTrue (procInit []) appW verW true []
    ⟨true, msgW⟩ (by decide) (by decide) rfl rfl).1

/-- C5: on a successful round trip the ledger file holds today's weekday —
whatever the response's `updateRequired` flag and message — and a second
`Check` the same day only re-reads the ledger: state unchanged, no network
call, no task launch. -/
theorem C5_success_writes_ledger (env : CheckEnv) (st : ProcState) (a : App)
    (v : String) (p : Bool) (o : List (Options → Options)) (cd : String)
    (r : checkResponse)
    (hkill : env.grantedDisableUpdateCheck ≠ trueLit)
    (hcd : env.userConfigDir = some cd) (hmk : env.mkdirOk = true)
    (hwr : env.writeOk = true)
    (hhttp : env.http = .response 200 (some r))
    (hdue : env.today ≠ (loadVersionConfig env st.fs a).1.LastCheckForUpdates) :
    fsLookup ((runPending env (Check env st a v p o).1).1).fs (vcFilePath cd a)
      = some (marshalVC env.today) ∧
    Check env ((runPending env (Check env st a v p o).1).1) a v p o
      = ((runPending env (Check env st a v p o).1).1,
         (loadVersionConfig env ((runPending env (Check env st a v p o).1).1).fs a).2) ∧
    (Check env ((runPending env (Check env st a v p o).1).1) a v p o).2.countP netEffect
      = 0 ∧
    (Check env ((runPending env (Check env st a v p o).1).1) a v p o).2.countP launchEffect
      = 0 := by
  have hst1 : (runPending env (Check env st a v p o).1).1
      = ⟨fsWriteFile st.fs (vcFilePath cd a) (marshalVC env.today),
         if r.UpdateRequired then [r.Message] else [], none⟩ := by
    rw [Check_due env st a v p o hkill hdue]
    simp [runPending, doCheck, callCheckAPI_resp_ok env a v p o r hhttp,
      Save_ok_eq env st.fs a env.today cd hcd hmk hwr]
  have hload := load_of_written env st.fs a env.today cd hcd hmk
  rw [hst1]
  have hC2 := Check_debounced env
    ⟨fsWriteFile st.fs (vcFilePath cd a) (marshalVC env.today),
     if r.UpdateRequired then [r.Message] else [], none⟩ a v p o hkill
    (by
      show env.today = (loadVersionConfig env
        (fsWriteFile st.fs (vcFilePath cd a) (marshalVC env.today)) a).1.LastCheckForUpdates
      rw [hload])
  refine ⟨?_, hC2, ?_, ?_⟩
  · exact fsLookup_fsWriteFile st.fs (vcFilePath cd a) (marshalVC env.today)
  · rw [hC2]
    exact (loadVersionConfig_counts env _ a).1
  · rw [hC2]
    exact (loadVersionConfig_counts env _ a).2.1

/-- C5 witness: a `{updateRequired: false, message: ""}` success still
records Monday in the ledger file. -/
theorem C5_witness :
    envOkFalseEmpty.writeOk = true ∧
    fsLookup ((runPending envOkFalseEmpty
        (Check envOkFalseEmpty (procInit []) appW verW true []).1).1).fs
        (vcFilePath cdW appW)
      = some (marshalVC envOkFalseEmpty.today) :=
  ⟨rfl, (C5_success_writes_ledger envOkFalseEmpty (procInit []) appW verW true []
    cdW ⟨false, emptyStr⟩ (by decide) rfl rfl rfl rfl (by decide)).1⟩

/-- C6: a non-200 status makes `callCheckAPI` fail with a protocol error,
and a full `Check`-then-`Print` run from a fresh state writes no ledger
record, leaves Pending Messages empty and emits nothing. -/
theorem C6_non_200_no_write_no_message (env : CheckEnv) (fs0 : Fs) (a : App)
    (v : String) (p : Bool) (o : List (Options → Options)) (s : Nat)
    (b : Option checkResponse)
    (hhttp : env.http = .response s b) (hs : s ≠ 200)
    (hkill : env.grantedDisableUpdateCheck ≠ trueLit) :
    (callCheckAPI env a v p o).1 = .error (.protocol s) ∧
    ((Print env (Check env (procInit fs0) a v p o).1).1).fs = fs0 ∧
    ((Print env (Check env (procInit fs0) a v p o).1).1).msgs = [] ∧
    (Print env (Check env (procInit fs0) a v p o).1).2.1 = [] ∧
    ((Check env (procInit fs0) a v p o).2
      ++ (Print env (Check env (procInit fs0) a v p o).1).2.2).countP writeEffect
      = 0 := by
  have hcall : (callCheckAPI env a v p o).1 = .error (.protocol s) := by
    simp [callCheckAPI, hhttp, hs]
  refine ⟨hcall, ?_⟩
  by_cases hdue : env.today
      = (loadVersionConfig env (procInit fs0).fs a).1.LastCheckForUpdates
  · have hC := Check_debounced env (procInit fs0) a v p o hkill hdue
    rw [hC]
    refine ⟨rfl, rfl, rfl, ?_⟩
    show ((loadVersionConfig env fs0 a).2 ++ ([] : List Effect)).countP writeEffect = 0
    rw [List.countP_append, (loadVersionConfig_counts env fs0 a).2.2]
    rfl
  · have hC := Check_due env (procInit fs0) a v p o hkill hdue
    rw [hC]
    have hd : doCheck env fs0 [] ⟨a, v, p, o⟩ = (fs0, [], (callCheckAPI env a v p o).2) := by
      simp [doCheck, hcall]
    have hp2 : Print env (⟨fs0, [], some ⟨a, v, p, o⟩⟩ : ProcState)
        = (⟨fs0, [], none⟩, [], (callCheckAPI env a v p o).2) := by
      simp [Print, runPending, hd]
    refine ⟨?_, ?_, ?_, ?_⟩
    · show ((Print env (⟨fs0, [], some ⟨a, v, p, o⟩⟩ : ProcState)).1).fs = fs0
      rw [hp2]
    · show ((Print env (⟨fs0, [], some ⟨a, v, p, o⟩⟩ : ProcState)).1).msgs = []
      rw [hp2]
    · show (Print env (⟨fs0, [], some ⟨a, v, p, o⟩⟩ : ProcState)).2.1 = []
      rw [hp2]
    · show (((loadVersionConfig env fs0 a).2 ++ [Effect.launchTask])
          ++ (Print env (⟨fs0, [], some ⟨a, v, p, o⟩⟩ : ProcState)).2.2).countP writeEffect
          = 0
      rw [hp2, callCheckAPI_effects env a v p o, List.countP_append, List.countP_append,
        (loadVersionConfig_counts env fs0 a).2.2]
      rfl

/-- C6 witness: an HTTP 500 check writes nothing and `Print` emits
nothing. -/
theorem C6_witness :
    (500 ≠ 200) ∧
    (Print env500 (Check env500 (procInit []) appW verW true []).1).2.1 = [] :=
  ⟨by decide, (C6_non_200_no_write_no_message env500 [] appW verW true [] 500 none
    rfl (by decide) (by decide)).2.2.2.1⟩

/-- C10: with no persisted ledger file the loader returns the zero record,
whose weekday is Sunday; hence a `Check` on a Sunday for a never-checked
application is debounced: state unchanged, no network call, no task
launch. -/
theorem C10_missing_ledger_is_sunday (env : CheckEnv) (st : ProcState) (a : App)
    (v : String) (p : Bool) (o : List (Options → Options))
    (hnofile : ∀ cd, env.userConfigDir = some cd →
      fsLookup st.fs (vcFilePath cd a) = none) :
    (loadVersionConfig env st.fs a).1.LastCheckForUpdates = Sunday ∧
    (env.today = Sunday →
      (Check env st a v p o).1 = st ∧
      (Check env st a v p o).2.countP netEffect = 0 ∧
      (Check env st a v p o).2.countP launchEffect = 0) := by
  have hload : (loadVersionConfig env st.fs a).1.LastCheckForUpdates = Sunday := by
    unfold loadVersionConfig
    cases hcd : env.userConfigDir with
    | none => rfl
    | some cd =>
      have hf := hnofile cd hcd
      simp only [vcFilePath] at hf
      by_cases hmk : env.mkdirOk
      · simp [hmk, hf]
      · simp [hmk]
  refine ⟨hload, fun htoday => ?_⟩
  by_cases hk : env.grantedDisableUpdateCheck = trueLit
  · rw [Check_killed env st a v p o hk]
    exact ⟨rfl, rfl, rfl⟩
  · have hC := Check_debounced env st a v p o hk (by rw [htoday, hload])
    rw [hC]
    exact ⟨rfl, (loadVersionConfig_counts env st.fs a).1,
      (loadVersionConfig_counts env st.fs a).2.1⟩

/-- C10 witness: a Sunday `Check` for an application with no ledger file
makes no network call. -/
theorem C10_witness :
    (mkEnv Sunday .transportError).today = Sunday ∧
    (Check (mkEnv Sunday .transportError) (procInit []) appW verW true []).2.countP
        netEffect = 0 :=
  ⟨rfl, ((C10_missing_ledger_is_sunday (mkEnv Sunday .transportError) (procInit [])
    appW verW true [] (fun _ _ => rfl)).2 rfl).2.1⟩

/-- C1: when today's weekday equals the one in the loaded ledger record,
`Check` returns with the state unchanged, no task launched and no network
call; consequently a `Check` whose background task completes, followed by a
second `Check` the same day, performs exactly one network call in total. -/
theorem C1_same_day_single_network_call (env : CheckEnv) (st : ProcState)
    (a : App) (v : String) (p : Bool) (o : List (Options → Options))
    (cd : String) (r : checkResponse)
    (hkill : env.grantedDisableUpdateCheck ≠ trueLit)
    (hcd : env.userConfigDir = some cd) (hmk : env.mkdirOk = true)
    (hwr : env.writeOk = true)
    (hhttp : env.http = .response 200 (some r))
    (hdue : env.today ≠ (loadVersionConfig env st.fs a).1.LastCheckForUpdates) :
    (∀ (env2 : CheckEnv) (st2 : ProcState),
      env2.today = (loadVersionConfig env2 st2.fs a).1.LastCheckForUpdates →
      (Check env2 st2 a v p o).1 = st2 ∧
      (Check env2 st2 a v p o).2.countP netEffect = 0 ∧
      (Check env2 st2 a v p o).2.countP launchEffect = 0) ∧
    ((Check env st a v p o).2
      ++ (runPending env (Check env st a v p o).1).2
      ++ (Check env (runPending env (Check env st a v p o).1).1 a v p o).2).countP
        netEffect = 1 := by
  constructor
  · intro env2 st2 h
    by_cases hk2 : env2.grantedDisableUpdateCheck = trueLit
    · rw [Check_killed env2 st2 a v p o hk2]
      exact ⟨rfl, rfl, rfl⟩
    · rw [Check_debounced env2 st2 a v p o hk2 h]
      exact ⟨rfl, (loadVersionConfig_counts env2 st2.fs a).1,
        (loadVersionConfig_counts env2 st2.fs a).2.1⟩
  · have hC := Check_due env st a v p o hkill hdue
    have hst1 : runPending env (Check env st a v p o).1
        = (⟨fsWriteFile st.fs (vcFilePath cd a) (marshalVC env.today),
            if r.UpdateRequired then [r.Message] else [], none⟩,
           (callCheckAPI env a v p o).2
             ++ [.mkdirAll (pathJoin cd commonfateDir),
                 .writeFile (vcFilePath cd a) (marshalVC env.today)]) := by
      rw [hC]
      simp [runPending, doCheck, callCheckAPI_resp_ok env a v p o r hhttp,
        Save_ok_eq env st.fs a env.today cd hcd hmk hwr]
    have hfst : (runPending env (Check env st a v p o).1).1
        = (⟨fsWriteFile st.fs (vcFilePath cd a) (marshalVC env.today),
            if r.UpdateRequired then [r.Message] else [], none⟩ : ProcState) := by
      rw [hst1]
    have hload := load_of_written env st.fs a env.today cd hcd hmk
    have hC2 := Check_debounced env
      ⟨fsWriteFile st.fs (vcFilePath cd a) (marshalVC env.today),
       if r.UpdateRequired then [r.Message] else [], none⟩ a v p o hkill
      (by
        show env.today = (loadVersionConfig env
          (fsWriteFile st.fs (vcFilePath cd a) (marshalVC env.today)) a).1.LastCheckForUpdates
        rw [hload])
    have e1 : (Check env st a v p o).2.countP netEffect = 0 := by
      rw [hC]
      simp [List.countP_append, List.countP_cons, netEffect,
        (loadVersionConfig_counts env st.fs a).1]
    have e2 : (runPending env (Check env st a v p o).1).2.countP netEffect = 1 := by
      rw [hst1]
      simp [callCheckAPI_effects env a v p o, List.countP_append, List.countP_cons,
        netEffect]
    have e3 : (Check env
        (⟨fsWriteFile st.fs (vcFilePath cd a) (marshalVC env.today),
          if r.UpdateRequired then [r.Message] else [], none⟩ : ProcState)
        a v p o).2.countP netEffect = 0 := by
      rw [hC2]
      exact (loadVersionConfig_counts env _ a).1
    rw [List.countP_append, List.countP_append, e1, e2, hfst, e3]

/-- C1 witness: a due check followed by its completion and a same-day
re-check performs exactly one network call. -/
theorem C1_witness :
    envOkTrue.today ≠ (loadVersionConfig envOkTrue (procInit []).fs
        appW).1.LastCheckForUpdates ∧
    ((Check envOkTrue (procInit []) appW verW true []).2
      ++ (runPending envOkTrue (Check envOkTrue (procInit []) appW verW true []).1).2
      ++ (Check envOkTrue
            (runPending envOkTrue (Check envOkTrue (procInit []) appW verW true []).1).1
            appW verW true []).2).countP netEffect = 1 :=
  ⟨by decide, (C1_same_day_single_network_call envOkTrue (procInit []) appW verW
    true [] cdW ⟨true, msgW⟩ (by decide) rfl rfl rfl rfl (by decide)).2⟩
